import Mathlib

/-
  Verification of the remote job orchestration subsystem of
  senku_chat_service (src/ssh_manager.py).

  The Python module is shallowly embedded: each method of SSHManager
  becomes a Lean function over an explicit state, and every interaction
  with the outside world (the paramiko SSH session, the remote shell,
  the local filesystem) is mediated by an explicit environment record,
  so that the observable behaviour of each method is a pure function of
  its inputs and that environment.
-/

namespace SenkuSSH

/-! ## String helpers mirroring the Python string primitives used by the code -/

/-- Containment of a pattern (as a character list) in a character list;
auxiliary for strContains. -/
def strContainsAux (pat : List Char) : List Char → Bool
  | [] => pat.isPrefixOf []
  | c :: cs => pat.isPrefixOf (c :: cs) || strContainsAux pat cs

/-- Python's substring test: the expression pat in hay on str values. -/
def strContains (hay pat : String) : Bool :=
  strContainsAux pat.data hay.data

/-- ASCII lower-casing of a single character, as Python's str.lower does
for the ASCII range (the only characters the code ever feeds it). -/
def chLower (c : Char) : Char :=
  if 'A' ≤ c && c ≤ 'Z' then Char.ofNat (c.toNat + 32) else c

/-- Python's str.lower restricted to ASCII input. -/
def pyLower (s : String) : String :=
  ⟨s.data.map chLower⟩

/-- Python's str.strip: drop leading and trailing whitespace. -/
def pyStrip (s : String) : String :=
  ⟨((s.data.dropWhile Char.isWhitespace).reverse.dropWhile Char.isWhitespace).reverse⟩

/-- Python truthiness of an Optional[str]: None and the empty string are
falsy, any other string truthy. -/
def pyTruthy : Option String → Bool
  | none => false
  | some s => !(s == "")

/-! ## Data model (src/ssh_manager.py, dataclasses SSHConfig and TrainingConfig) -/

/-- SSHConfig dataclass: connection parameters. -/
structure SSHConfig where
  hostname : String
  port : Nat := 22
  username : String := "root"
  password : Option String := none
  key_filename : Option String := none
  key_password : Option String := none
  timeout : Nat := 30
deriving DecidableEq

/-- TrainingConfig dataclass. The Python learning_rate is a float that is
only ever stored and echoed, never used arithmetically, so it is carried
here as its decimal literal. -/
structure TrainingConfig where
  model_id : String
  role_file : String
  batch_size : Int
  epochs : Int
  learning_rate : String
  use_lora : Bool := true
  remote_workspace : String := "/root/workspace"
deriving DecidableEq

/-- The mutable session state of an SSHManager instance: self.ssh_client and
self.scp_client. Client objects are identified by numeric handles; nextHandle
is a freshness counter so that newly constructed SSHClient / SCPClient objects
are distinguishable from older ones. -/
structure SSHState where
  ssh_client : Option Nat
  scp_client : Option Nat
  nextHandle : Nat
deriving DecidableEq

/-- Outcome of one call into the paramiko layer during connect
(SSHClient.connect, or the SCPClient constructor). -/
inductive ConnectStep
  | ok
  | raises (msg : String)
deriving DecidableEq

/-- Environment for SSHManager.connect: whether the authentication attempt
and the SCP-channel creation succeed or raise. -/
structure ConnectEnv where
  connectResult : ConnectStep
  scpResult : ConnectStep
deriving DecidableEq

/-! ## SSHManager.connect (src/ssh_manager.py lines 99-140)

The method first assigns a freshly constructed SSHClient to
self.ssh_client, then attempts to authenticate (a truthy password takes the
first branch, else a truthy key filename, else a ValueError is raised),
then assigns a fresh SCPClient to self.scp_client, and returns True; any
exception is caught and False is returned, with no cleanup of the
already-assigned fields. -/

def connect (env : ConnectEnv) (cfg : SSHConfig) (s : SSHState) : Bool × SSHState :=
  let s1 : SSHState :=
    { s with ssh_client := some s.nextHandle, nextHandle := s.nextHandle + 1 }
  if pyTruthy cfg.password then
    match env.connectResult with
    | ConnectStep.raises _ => (false, s1)
    | ConnectStep.ok =>
      match env.scpResult with
      | ConnectStep.raises _ => (false, s1)
      | ConnectStep.ok =>
        (true, { s1 with scp_client := some s1.nextHandle, nextHandle := s1.nextHandle + 1 })
  else if pyTruthy cfg.key_filename then
    match env.connectResult with
    | ConnectStep.raises _ => (false, s1)
    | ConnectStep.ok =>
      match env.scpResult with
      | ConnectStep.raises _ => (false, s1)
      | ConnectStep.ok =>
        (true, { s1 with scp_client := some s1.nextHandle, nextHandle := s1.nextHandle + 1 })
  else
    (false, s1)

/-- A close event emitted by disconnect: which client object was closed. -/
inductive CloseOp
  | closeScp (handle : Nat)
  | closeSsh (handle : Nat)
deriving DecidableEq

/-! ## SSHManager.disconnect (src/ssh_manager.py lines 142-152)

Closes the SCP client if present and nulls the field, then closes the SSH
client if present and nulls the field. The returned list records the close
calls performed. -/

def disconnect (s : SSHState) : SSHState × List CloseOp :=
  let step1 : SSHState × List CloseOp :=
    match s.scp_client with
    | some h => ({ s with scp_client := none }, [CloseOp.closeScp h])
    | none => (s, [])
  match step1.1.ssh_client with
  | some h => ({ step1.1 with ssh_client := none }, step1.2 ++ [CloseOp.closeSsh h])
  | none => (step1.1, step1.2)

/-! ## Job registry (src/ssh_manager.py lines 538-591)

The registry is the local remote_jobs/ directory, one JSON file per job id.
A file either parses to a well-formed record, or exists but fails
json.load (RegFile.corrupt). -/

/-- The JSON object written by save_job_info. -/
structure JobRecord where
  job_id : String
  model_id : String
  remote_workspace : String
  pid : String
  config : TrainingConfig
deriving DecidableEq

/-- One registry file: either parseable to a record, or corrupt. -/
inductive RegFile
  | record (r : JobRecord)
  | corrupt (raw : String)
deriving DecidableEq

/-- The remote_jobs directory: filenames (keyed by job id) to file contents. -/
abbrev Registry := List (String × RegFile)

/-- SSHManager save-job-info (lines 538-566): writes the record for job_id,
overwriting any existing file of that name. -/
def _save_job_info (reg : Registry) (job_id : String) (training_config : TrainingConfig)
    (remote_workspace : String) (pid : String) : Registry :=
  (job_id,
    RegFile.record
      { job_id := job_id
        model_id := training_config.model_id
        remote_workspace := remote_workspace
        pid := pid
        config := training_config }) :: reg.filter (fun e => e.1 != job_id)

/-- SSHManager load-job-info (lines 568-591): returns None when the file
does not exist; when the file exists, json.load is attempted and any parse
exception is caught and logged, also returning None. -/
def _load_job_info (reg : Registry) (job_id : String) : Option JobRecord :=
  match reg.lookup job_id with
  | none => none
  | some (RegFile.record r) => some r
  | some (RegFile.corrupt _) => none

/-! ## Remote execution and file transfer (src/ssh_manager.py lines 154-238) -/

/-- Result of SSHManager.execute_command: either a completed command with its
exit code, stdout and stderr, or a raised exception (connection loss,
timeout, or a missing client). -/
inductive ExecResult
  | ok (return_code : Int) (stdout stderr : String)
  | raises (msg : String)
deriving DecidableEq

/-- Environment for the remote host and the local filesystem probes:
exec gives the behaviour of the established SSH channel on a command
string, put the behaviour of scp_client.put on a (local, remote) pair
(some msg means the call raised), localFileExists the result of
Path(p).exists(), and tempName the filename produced by
tempfile.NamedTemporaryFile. -/
structure RemoteEnv where
  exec : String → ExecResult
  put : String → String → Option String
  localFileExists : String → Bool
  tempName : String

/-- SSHManager.execute_command (lines 154-190): raises ConnectionError when
self.ssh_client is None, otherwise defers to the channel. A non-zero exit
code is returned, not raised. -/
def execute_command (env : RemoteEnv) (s : SSHState) (command : String) : ExecResult :=
  match s.ssh_client with
  | none => ExecResult.raises "SSH client not connected"
  | some _ => env.exec command

/-- SSHManager.upload_file (lines 192-214): raises ConnectionError when
self.scp_client is None, otherwise defers to scp_client.put; some msg is a
raised exception, none is success. -/
def upload_file (env : RemoteEnv) (s : SSHState) (local_path remote_path : String) :
    Option String :=
  match s.scp_client with
  | none => some "SCP client not connected"
  | some _ => env.put local_path remote_path

/-- A remote I/O operation initiated by the launcher, recorded in an effect
trace: a command handed to execute_command, or a file handed to
upload_file. -/
inductive RemoteOp
  | exec (command : String)
  | put (local_path remote_path : String)
deriving DecidableEq

/-- Local filesystem: filename to content. -/
abbrev LocalFS := List (String × String)

/-- os.unlink of a file. -/
def removeLocal (fs : LocalFS) (name : String) : LocalFS :=
  fs.filter (fun e => e.1 != name)

/-! ## Script generation (src/ssh_manager.py lines 431-505)

The method builds the remote training script as one large Python f-string.
Its replacement fields are evaluated, left to right, at generation time:
the first field, json.dumps(training_config.__dict__, indent=4), succeeds,
but the next one - the template line
print(f"Model ID: ... config[ ... ] ...") at source line 461 uses SINGLE
braces around the expression config[...], unlike every later template line,
which doubles its braces - is then evaluated in the generating scope, where
no variable named config exists. The method therefore always raises
NameError before returning; it can never produce a script string. -/

/-- SSHManager create-training-script (lines 431-505): always raises, see
the section comment above. -/
def _create_training_script (_training_config : TrainingConfig) : Except String String :=
  Except.error "NameError: name \x27config\x27 is not defined"

/-! ## SSHManager upload-string-as-file (src/ssh_manager.py lines 507-536)

Raises ConnectionError when self.ssh_client is None; otherwise writes the
content to a fresh local temporary file, uploads it, and in a finally block
unlinks the temporary file, re-raising any upload exception afterwards. -/

def _upload_string_as_file (env : RemoteEnv) (s : SSHState) (fs : LocalFS)
    (content remote_path : String) :
    Except String Unit × LocalFS × List RemoteOp :=
  match s.ssh_client with
  | none => (Except.error "SSH client not connected", fs, [])
  | some _ =>
    let temp_file := env.tempName
    let fs1 : LocalFS := (temp_file, content) :: fs
    match upload_file env s temp_file remote_path with
    | none => (Except.ok (), removeLocal fs1 temp_file, [RemoteOp.put temp_file remote_path])
    | some e => (Except.error e, removeLocal fs1 temp_file, [RemoteOp.put temp_file remote_path])

/-! ## SSHManager.upload_training_files (src/ssh_manager.py lines 240-281)

Computes the per-job remote workspace, executes mkdir -p for it FIRST,
only then checks that the local role file exists (raising FileNotFoundError
when it does not), uploads the role file, generates the training script and
uploads it. Returns the workspace path. The RemoteOp list records each
remote operation initiated, in order, including those preceding a raise. -/

def upload_training_files (env : RemoteEnv) (s : SSHState) (fs : LocalFS)
    (training_config : TrainingConfig) :
    Except String String × LocalFS × List RemoteOp :=
  let remote_workspace := training_config.remote_workspace ++ "/" ++ training_config.model_id
  let mkdir_cmd := "mkdir -p " ++ remote_workspace
  match execute_command env s mkdir_cmd with
  | ExecResult.raises e => (Except.error e, fs, [RemoteOp.exec mkdir_cmd])
  | ExecResult.ok _ _ _ =>
    if env.localFileExists training_config.role_file then
      let remote_role_path := remote_workspace ++ "/role.json"
      match upload_file env s training_config.role_file remote_role_path with
      | some e =>
        (Except.error e, fs,
          [RemoteOp.exec mkdir_cmd, RemoteOp.put training_config.role_file remote_role_path])
      | none =>
        match _create_training_script training_config with
        | Except.error e =>
          (Except.error e, fs,
            [RemoteOp.exec mkdir_cmd, RemoteOp.put training_config.role_file remote_role_path])
        | Except.ok training_script =>
          let remote_script_path := remote_workspace ++ "/train.py"
          match _upload_string_as_file env s fs training_script remote_script_path with
          | (Except.error e, fs1, ops) =>
            (Except.error e, fs1,
              [RemoteOp.exec mkdir_cmd,
                RemoteOp.put training_config.role_file remote_role_path] ++ ops)
          | (Except.ok _, fs1, ops) =>
            (Except.ok remote_workspace, fs1,
              [RemoteOp.exec mkdir_cmd,
                RemoteOp.put training_config.role_file remote_role_path] ++ ops)
    else
      (Except.error ("Role file not found: " ++ training_config.role_file), fs,
        [RemoteOp.exec mkdir_cmd])

/-! ## SSHManager.start_training (src/ssh_manager.py lines 283-320)

Uploads the training files, launches the detached remote process, checks the
launch exit code (raising RuntimeError when non-zero), derives the pid from
the echoed stdout and the job id from the fixed prefix, the model id and the
pid, and only then persists the registry record. Any raise propagates with
the registry unchanged. -/

def start_training (env : RemoteEnv) (s : SSHState) (fs : LocalFS) (reg : Registry)
    (training_config : TrainingConfig) :
    Except String String × LocalFS × Registry × List RemoteOp :=
  match upload_training_files env s fs training_config with
  | (Except.error e, fs1, ops) => (Except.error e, fs1, reg, ops)
  | (Except.ok remote_workspace, fs1, ops) =>
    let training_cmd :=
      "cd " ++ remote_workspace ++ " && python train.py > training.log 2>&1 & echo $!"
    match execute_command env s training_cmd with
    | ExecResult.raises e => (Except.error e, fs1, reg, ops ++ [RemoteOp.exec training_cmd])
    | ExecResult.ok return_code stdout stderr =>
      if return_code != 0 then
        (Except.error ("Failed to start training: " ++ stderr), fs1, reg,
          ops ++ [RemoteOp.exec training_cmd])
      else
        let pid := pyStrip stdout
        let job_id := "remote_" ++ training_config.model_id ++ "_" ++ pid
        let reg1 := _save_job_info reg job_id training_config remote_workspace pid
        (Except.ok job_id, fs1, reg1, ops ++ [RemoteOp.exec training_cmd])

/-! ## SSHManager.check_training_status (src/ssh_manager.py lines 322-386) -/

/-- The dict returned by check_training_status, by its status field. -/
inductive JobStatus
  | not_found (error : String)
  | running (pid remote_workspace latest_log : String)
  | completed (pid remote_workspace model_files : String)
  | failed (pid remote_workspace error_log : String)
  | error (msg : String)
deriving DecidableEq

/-- The liveness probe command for a pid (line 345). -/
def check_cmd (pid : String) : String :=
  "ps -p " ++ pid ++ " > /dev/null 2>&1 && echo \x27running\x27 || echo \x27stopped\x27"

/-- The live log tail command (line 350). -/
def log_cmd (remote_workspace : String) : String :=
  "tail -20 " ++ remote_workspace ++ "/training.log"

/-- The models directory listing command (line 362). -/
def check_model_cmd (remote_workspace : String) : String :=
  "ls -la " ++ remote_workspace ++ "/models/"

/-- The diagnostic log tail command (line 374). -/
def error_cmd (remote_workspace : String) : String :=
  "tail -50 " ++ remote_workspace ++ "/training.log"

/-- SSHManager.check_training_status: loads the registry record (not_found
when absent), probes liveness of the recorded pid, returns running with the
live log tail when the probe output contains the word running, otherwise
lists the remote models/ directory and classifies completed when the
lower-cased listing contains the word model, failed (with the diagnostic
tail) otherwise; every raise inside the body is caught and mapped to the
error status. -/
def check_training_status (env : RemoteEnv) (s : SSHState) (reg : Registry)
    (job_id : String) : JobStatus :=
  match _load_job_info reg job_id with
  | none => JobStatus.not_found "Job not found"
  | some job_info =>
    let remote_workspace := job_info.remote_workspace
    let pid := job_info.pid
    match execute_command env s (check_cmd pid) with
    | ExecResult.raises e => JobStatus.error e
    | ExecResult.ok _ stdout _ =>
      if strContains stdout "running" then
        match execute_command env s (log_cmd remote_workspace) with
        | ExecResult.raises e => JobStatus.error e
        | ExecResult.ok _ log_output _ =>
          JobStatus.running pid remote_workspace log_output
      else
        match execute_command env s (check_model_cmd remote_workspace) with
        | ExecResult.raises e => JobStatus.error e
        | ExecResult.ok _ model_output _ =>
          if strContains (pyLower model_output) "model" then
            JobStatus.completed pid remote_workspace model_output
          else
            match execute_command env s (error_cmd remote_workspace) with
            | ExecResult.raises e => JobStatus.error e
            | ExecResult.ok _ error_log _ =>
              JobStatus.failed pid remote_workspace error_log

/-! ## Model of the remote shell's directory listing

check_training_status observes the models/ directory only through the text
that ls -la prints. To relate the status to the state of the directory
itself, the standard output of ls -la on a single directory argument is
modelled: a missing directory produces an error on stderr and an empty
stdout with a non-zero exit code; an existing directory produces the total
line, the dot and dot-dot entries, and one line per entry. -/

/-- One ls -la entry line for a plain file. -/
def lsLine (entry : String) : String :=
  "-rw-r--r-- 1 root root 4096 Jan  1 00:00 " ++ entry

/-- The (exit code, stdout, stderr) of ls -la on a directory that is missing
(none) or holds the given entries (some). -/
def lsLaOutput : Option (List String) → Int × String × String
  | none => (2, "", "ls: cannot access: No such file or directory\n")
  | some entries =>
    (0,
      "total 8\n" ++
      "drwxr-xr-x 2 root root 4096 Jan  1 00:00 .\n" ++
      "drwxr-xr-x 2 root root 4096 Jan  1 00:00 ..\n" ++
      String.intercalate "\n" (entries.map lsLine),
      "")

/-! ## Concrete fixtures used by the scenario theorems -/

/-- Handles of live client objects are below the freshness counter. -/
def SSHState.wfb (s : SSHState) : Bool :=
  (match s.ssh_client with
    | some h => decide (h < s.nextHandle)
    | none => true) &&
  (match s.scp_client with
    | some h => decide (h < s.nextHandle)
    | none => true)

/-- A manager that has never connected. -/
def freshState : SSHState :=
  { ssh_client := none, scp_client := none, nextHandle := 0 }

/-- A connected manager: one SSH client and one SCP client. -/
def connState : SSHState :=
  { ssh_client := some 0, scp_client := some 1, nextHandle := 2 }

/-- A password-based connection configuration. -/
def cfgPw : SSHConfig :=
  { hostname := "region-1.example.net", password := some "pw" }

/-- Connect environment in which authentication raises. -/
def envAuthFail : ConnectEnv :=
  { connectResult := ConnectStep.raises "Authentication failed.", scpResult := ConnectStep.ok }

/-- Connect environment in which every step succeeds. -/
def envConnOk : ConnectEnv :=
  { connectResult := ConnectStep.ok, scpResult := ConnectStep.ok }

/-- A training configuration for model m1 under the default workspace root. -/
def tcM1 : TrainingConfig :=
  { model_id := "m1", role_file := "/tmp/role.json", batch_size := 4, epochs := 1,
    learning_rate := "0.0001" }

/-- The registry record left by a launch of tcM1 with pid 123. -/
def recM1 : JobRecord :=
  { job_id := "remote_m1_123", model_id := "m1", remote_workspace := "/root/workspace/m1",
    pid := "123", config := tcM1 }

/-- A registry holding exactly the record for remote_m1_123. -/
def regM1 : Registry := [("remote_m1_123", RegFile.record recM1)]

/-- Repackage an (exit code, stdout, stderr) triple as a completed command. -/
def okOf (t : Int × String × String) : ExecResult :=
  ExecResult.ok t.1 t.2.1 t.2.2

/-- A remote environment for status polls of the m1 job: the four commands
check_training_status can issue are mapped to the given results; the role
file exists and uploads succeed. -/
def statusEnv (probe lsRes tail20 tail50 : ExecResult) : RemoteEnv :=
  { exec := fun cmd =>
      if cmd = check_cmd "123" then probe
      else if cmd = check_model_cmd "/root/workspace/m1" then lsRes
      else if cmd = log_cmd "/root/workspace/m1" then tail20
      else if cmd = error_cmd "/root/workspace/m1" then tail50
      else ExecResult.raises "unexpected command"
    put := fun _ _ => none
    localFileExists := fun _ => true
    tempName := "/tmp/tmpscript.py" }

/-- A remote environment in which every remote operation succeeds and the
local role file exists. -/
def envHappy : RemoteEnv :=
  { exec := fun _ => ExecResult.ok 0 "" ""
    put := fun _ _ => none
    localFileExists := fun _ => true
    tempName := "/tmp/tmpscript.py" }

/-- A remote environment in which the local role file is missing and every
remote operation succeeds. -/
def envNoRole : RemoteEnv :=
  { exec := fun _ => ExecResult.ok 0 "" ""
    put := fun _ _ => none
    localFileExists := fun _ => false
    tempName := "/tmp/tmpscript.py" }

/-! ## Claim C4 -/

/-- Claim C4 as stated is false: on a fresh manager whose authentication
attempt raises, connect returns False but self.ssh_client is left holding
the already-constructed client object, not None. -/
theorem C4_counterexample :
    (connect envAuthFail cfgPw freshState).1 = false ∧
    (connect envAuthFail cfgPw freshState).2.ssh_client ≠ none := by
  decide

/-- Claim C4 amended: connect returns a failure value (never raises) on any
authentication, network or timeout error and on a missing credential, but
the session state is not nulled: ssh_client keeps the freshly constructed
client and scp_client keeps its previous value. -/
theorem C4_failed_connect_state (env : ConnectEnv) (cfg : SSHConfig) (s : SSHState)
    (hfail : env.connectResult ≠ ConnectStep.ok ∨ env.scpResult ≠ ConnectStep.ok ∨
      (pyTruthy cfg.password = false ∧ pyTruthy cfg.key_filename = false)) :
    (connect env cfg s).1 = false ∧
    (connect env cfg s).2.ssh_client = some s.nextHandle ∧
    (connect env cfg s).2.scp_client = s.scp_client := by
  unfold connect
  by_cases hp : pyTruthy cfg.password = true
  · simp only [hp, if_true]
    rcases hc : env.connectResult with _ | m
    · rcases hs : env.scpResult with _ | m2
      · rcases hfail with h | h | h
        · exact absurd hc h
        · exact absurd hs h
        · rw [h.1] at hp; simp at hp
      · simp
    · simp
  · rw [Bool.not_eq_true] at hp
    simp only [hp, Bool.false_eq_true, if_false]
    by_cases hk : pyTruthy cfg.key_filename = true
    · simp only [hk, if_true]
      rcases hc : env.connectResult with _ | m
      · rcases hs : env.scpResult with _ | m2
        · rcases hfail with h | h | h
          · exact absurd hc h
          · exact absurd hs h
          · rw [h.2] at hk; simp at hk
        · simp
      · simp
    · rw [Bool.not_eq_true] at hk
      simp only [hk, Bool.false_eq_true, if_false]
      exact ⟨trivial, trivial, trivial⟩

/-- Witness for C4: the amended statement at the fresh manager with the
failing authentication environment. -/
theorem C4_failed_connect_state_witness :
    (connect envAuthFail cfgPw freshState).1 = false ∧
    (connect envAuthFail cfgPw freshState).2.ssh_client = some 0 ∧
    (connect envAuthFail cfgPw freshState).2.scp_client = none :=
  C4_failed_connect_state envAuthFail cfgPw freshState (Or.inl (by decide))

/-! ## Claim C8 -/

/-- Claim C8 as stated is false: connect on an already-connected manager is
not a no-op; it succeeds but replaces ssh_client with a newly constructed
client object. -/
theorem C8_counterexample :
    (connect envConnOk cfgPw connState).1 = true ∧
    (connect envConnOk cfgPw connState).2.ssh_client ≠ connState.ssh_client ∧
    (connect envConnOk cfgPw connState).2.scp_client ≠ connState.scp_client := by
  decide

/-- Claim C8 amended: calling connect while already connected re-runs the
whole connection sequence; when it succeeds it returns True but replaces
both ssh_client and scp_client with newly constructed objects (the previous
ones are dropped without being closed). -/
theorem C8_reconnect_replaces_session (env : ConnectEnv) (cfg : SSHConfig) (s : SSHState)
    (hcred : pyTruthy cfg.password = true ∨
      (pyTruthy cfg.password = false ∧ pyTruthy cfg.key_filename = true))
    (hok : env.connectResult = ConnectStep.ok) (hscp : env.scpResult = ConnectStep.ok)
    (hwf : s.wfb = true) (hconn : s.ssh_client.isSome = true)
    (hscpc : s.scp_client.isSome = true) :
    (connect env cfg s).1 = true ∧
    (connect env cfg s).2.ssh_client = some s.nextHandle ∧
    (connect env cfg s).2.scp_client = some (s.nextHandle + 1) ∧
    (connect env cfg s).2.ssh_client ≠ s.ssh_client ∧
    (connect env cfg s).2.scp_client ≠ s.scp_client := by
  rcases s with ⟨ssh, scp, n⟩
  rcases hssh : ssh with _ | h1
  · subst hssh; simp at hconn
  · rcases hscp2 : scp with _ | h2
    · subst hscp2; simp at hscpc
    · subst hssh; subst hscp2
      simp only [SSHState.wfb, Bool.and_eq_true, decide_eq_true_eq] at hwf
      unfold connect
      rcases hcred with hpw | ⟨hpn, hkf⟩
      · simp only [hpw, if_true, hok, hscp]
        refine ⟨by simp, by simp, by simp, ?_, ?_⟩
        · simp only [ne_eq, Option.some.injEq]
          omega
        · simp only [ne_eq, Option.some.injEq]
          omega
      · simp only [hpn, Bool.false_eq_true, if_false, hkf, if_true, hok, hscp]
        refine ⟨by simp, by simp, by simp, ?_, ?_⟩
        · simp only [ne_eq, Option.some.injEq]
          omega
        · simp only [ne_eq, Option.some.injEq]
          omega

/-- Witness for C8: the amended statement at the connected manager with the
all-success environment. -/
theorem C8_reconnect_replaces_session_witness :
    (connect envConnOk cfgPw connState).1 = true ∧
    (connect envConnOk cfgPw connState).2.ssh_client = some 2 ∧
    (connect envConnOk cfgPw connState).2.scp_client = some 3 ∧
    (connect envConnOk cfgPw connState).2.ssh_client ≠ connState.ssh_client ∧
    (connect envConnOk cfgPw connState).2.scp_client ≠ connState.scp_client :=
  C8_reconnect_replaces_session envConnOk cfgPw connState (Or.inl (by decide))
    (by decide) (by decide) (by decide) (by decide) (by decide)

/-! ## Claim C9 -/

/-- Claim C9: disconnect (a total function here, mirroring that the method
only performs close calls) leaves both clients null, is a no-op on a
manager that is not connected, and running it a second time closes nothing
and changes nothing. -/
theorem C9_disconnect_idempotent (s : SSHState) :
    (disconnect s).1.ssh_client = none ∧
    (disconnect s).1.scp_client = none ∧
    disconnect (disconnect s).1 = ((disconnect s).1, []) ∧
    (s.ssh_client = none → s.scp_client = none → disconnect s = (s, [])) := by
  rcases s with ⟨ssh, scp, n⟩
  cases ssh <;> cases scp <;> simp [disconnect]

/-- Witness for C9: the no-op clause at the never-connected manager. -/
theorem C9_disconnect_idempotent_witness :
    disconnect freshState = (freshState, []) :=
  (C9_disconnect_idempotent freshState).2.2.2 rfl rfl

/-! ## Claim C6 -/

/-- A registry holding one corrupt file for job j1. -/
def regCorrupt : Registry := [("j1", RegFile.corrupt "oops not json")]

/-- Claim C6 as stated is false: a corrupt registry file does not produce a
structured parse error; load returns None for it, the very same value it
returns when no file exists, so the two cases are indistinguishable. -/
theorem C6_counterexample :
    _load_job_info regCorrupt "j1" = none ∧
    _load_job_info ([] : Registry) "j1" = none := by
  decide

/-- Claim C6 amended: load returns None (absent) when no registry file
exists for the id, and also returns None when the file exists but fails to
parse - the parse failure is only logged, not distinguished in the return
value. -/
theorem C6_load_absent_and_corrupt (reg : Registry) (job_id : String) :
    (reg.lookup job_id = none → _load_job_info reg job_id = none) ∧
    (∀ raw, reg.lookup job_id = some (RegFile.corrupt raw) →
      _load_job_info reg job_id = none) := by
  constructor
  · intro h
    unfold _load_job_info
    rw [h]
  · intro raw h
    unfold _load_job_info
    rw [h]

/-- Witness for C6: the amended statement at the corrupt one-file registry. -/
theorem C6_load_absent_and_corrupt_witness :
    _load_job_info regCorrupt "j1" = none :=
  (C6_load_absent_and_corrupt regCorrupt "j1").2 "oops not json" (by decide)

/-! ## Claim C7 -/

/-- Claim C7: saving a job record and loading it back by the same id yields
exactly the saved fields (round-trip fidelity), for any prior registry
contents. -/
theorem C7_save_load_roundtrip (reg : Registry) (job_id : String)
    (training_config : TrainingConfig) (remote_workspace pid : String) :
    _load_job_info (_save_job_info reg job_id training_config remote_workspace pid) job_id =
      some
        { job_id := job_id
          model_id := training_config.model_id
          remote_workspace := remote_workspace
          pid := pid
          config := training_config } := by
  unfold _load_job_info _save_job_info
  simp [List.lookup]

/-! ## Claim C10 -/

/-- Removing a name that is not present leaves the file list unchanged. -/
theorem filter_ne_of_lookup_none (fs : LocalFS) (name : String)
    (h : fs.lookup name = none) :
    fs.filter (fun e => e.1 != name) = fs := by
  induction fs with
  | nil => rfl
  | cons e rest ih =>
    rw [List.lookup] at h
    rcases hbe : (name == e.1) with _ | _
    · rw [hbe] at h
      simp only [List.filter_cons]
      have hne : (e.1 != name) = true := by
        simp only [bne_iff_ne, ne_eq]
        intro hEq
        rw [hEq] at hbe
        simp at hbe
      rw [hne, ih h]
      simp
    · rw [hbe] at h
      simp at h

/-- Claim C10: whatever the upload outcome, the temporary local file created
by the string-upload helper is gone afterwards and the local filesystem is
exactly as before (the fresh temporary name is the one produced by
tempfile, so it is not a pre-existing file). -/
theorem C10_temp_file_removed (env : RemoteEnv) (s : SSHState) (fs : LocalFS)
    (content remote_path : String)
    (hfresh : fs.lookup env.tempName = none) :
    (_upload_string_as_file env s fs content remote_path).2.1 = fs := by
  rcases hssh : s.ssh_client with _ | h
  · simp [_upload_string_as_file, hssh]
  · rcases hput : upload_file env s env.tempName remote_path with _ | e
    all_goals
      simp only [_upload_string_as_file, hssh, hput]
      unfold removeLocal
      rw [List.filter_cons]
      simp only [bne_self_eq_false, Bool.false_eq_true, if_false]
      exact filter_ne_of_lookup_none fs env.tempName hfresh

/-- Witness for C10: a concrete run over a one-file local filesystem, with
the upload succeeding. -/
theorem C10_temp_file_removed_witness :
    (_upload_string_as_file envHappy connState [("role.json", "data")] "print()"
      "/root/workspace/m1/train.py").2.1 = [("role.json", "data")] :=
  C10_temp_file_removed envHappy connState [("role.json", "data")] "print()"
    "/root/workspace/m1/train.py" (by decide)

/-! ## Claim C2 -/

/-- Claim C2: with a registry record present and the liveness probe
completing with output that reports the pid as alive (containing the word
running), check_training_status yields running with the live log tail when
the tail command completes, the error status when it raises, and in no case
completed or failed. -/
theorem C2_alive_never_terminal (env : RemoteEnv) (s : SSHState) (reg : Registry)
    (job_id : String) (info : JobRecord)
    (hload : _load_job_info reg job_id = some info)
    (rc : Int) (out err : String)
    (hps : execute_command env s (check_cmd info.pid) = ExecResult.ok rc out err)
    (halive : strContains out "running" = true) :
    (∀ rc2 log err2,
      execute_command env s (log_cmd info.remote_workspace) = ExecResult.ok rc2 log err2 →
      check_training_status env s reg job_id =
        JobStatus.running info.pid info.remote_workspace log) ∧
    (∀ e, execute_command env s (log_cmd info.remote_workspace) = ExecResult.raises e →
      check_training_status env s reg job_id = JobStatus.error e) ∧
    (∀ p w m, check_training_status env s reg job_id ≠ JobStatus.completed p w m) ∧
    (∀ p w m, check_training_status env s reg job_id ≠ JobStatus.failed p w m) := by
  have hmain : check_training_status env s reg job_id =
      match execute_command env s (log_cmd info.remote_workspace) with
      | ExecResult.raises e => JobStatus.error e
      | ExecResult.ok _ log _ => JobStatus.running info.pid info.remote_workspace log := by
    simp only [check_training_status, hload, hps, halive, if_true]
  refine ⟨?_, ?_, ?_, ?_⟩
  · intro rc2 log err2 hlog
    rw [hmain, hlog]
  · intro e hlog
    rw [hmain, hlog]
  · intro p w m
    rw [hmain]
    rcases execute_command env s (log_cmd info.remote_workspace) with ⟨rc2, log, err2⟩ | e <;>
      simp
  · intro p w m
    rw [hmain]
    rcases execute_command env s (log_cmd info.remote_workspace) with ⟨rc2, log, err2⟩ | e <;>
      simp

/-- Environment of a poll taken while the m1 process is alive. -/
def envAlive : RemoteEnv :=
  statusEnv (ExecResult.ok 0 "running\n" "") (ExecResult.raises "not reached")
    (ExecResult.ok 0 "Epoch 1/1 - Training..." "") (ExecResult.raises "not reached")

/-- Witness for C2: a concrete alive poll returns running with the log
tail. -/
theorem C2_alive_never_terminal_witness :
    check_training_status envAlive connState regM1 "remote_m1_123" =
      JobStatus.running "123" "/root/workspace/m1" "Epoch 1/1 - Training..." :=
  (C2_alive_never_terminal envAlive connState regM1 "remote_m1_123" recM1 (by decide)
      0 "running\n" "" (by decide) (by decide)).1 0 "Epoch 1/1 - Training..." "" (by decide)

/-! ## Claim C1 -/

/-- Environment of a poll taken after the m1 process exited, where the
remote models/ directory is NON-EMPTY but holds only a file whose listing
line does not mention the marker word. -/
def envDoneNoMarker : RemoteEnv :=
  statusEnv (ExecResult.ok 0 "stopped\n" "") (okOf (lsLaOutput (some ["data.txt"])))
    (ExecResult.raises "not reached") (ExecResult.ok 0 "Traceback: boom" "")

/-- Environment of a poll taken after the m1 process exited with the
artifacts the generated script writes present in models/. -/
def envDoneWithModel : RemoteEnv :=
  statusEnv (ExecResult.ok 0 "stopped\n" "")
    (okOf (lsLaOutput (some ["m1_model.bin", "m1_config.json"])))
    (ExecResult.raises "not reached") (ExecResult.raises "not reached")

/-- Claim C1 as stated is false: the process is gone and the models/
directory is non-empty (it holds data.txt), yet check_training_status
classifies the job failed, because the classification tests whether the
listing text contains the word model, not whether the directory has
entries. -/
theorem C1_counterexample :
    (["data.txt"] ≠ ([] : List String)) ∧
    check_training_status envDoneNoMarker connState regM1 "remote_m1_123" =
      JobStatus.failed "123" "/root/workspace/m1" "Traceback: boom" := by
  exact ⟨by decide, by decide⟩

/-- Claim C1 amended: when the process is gone and the listing command
completes, the status is completed (listing attached) exactly when the
lower-cased listing text contains the substring model, and otherwise failed
(diagnostic log tail attached); the listing text of an empty or of a
missing models/ directory never contains that substring, so those cases are
classified failed. -/
theorem C1_amended_status_classification (env : RemoteEnv) (s : SSHState) (reg : Registry)
    (job_id : String) (info : JobRecord)
    (hload : _load_job_info reg job_id = some info)
    (rc1 : Int) (out1 err1 : String)
    (hps : execute_command env s (check_cmd info.pid) = ExecResult.ok rc1 out1 err1)
    (hdead : strContains out1 "running" = false)
    (rcL : Int) (outL errL : String)
    (hls : execute_command env s (check_model_cmd info.remote_workspace) =
      ExecResult.ok rcL outL errL) :
    (strContains (pyLower outL) "model" = true →
      check_training_status env s reg job_id =
        JobStatus.completed info.pid info.remote_workspace outL) ∧
    (∀ rcT outT errT, strContains (pyLower outL) "model" = false →
      execute_command env s (error_cmd info.remote_workspace) = ExecResult.ok rcT outT errT →
      check_training_status env s reg job_id =
        JobStatus.failed info.pid info.remote_workspace outT) ∧
    strContains (pyLower (lsLaOutput (some [])).2.1) "model" = false ∧
    strContains (pyLower (lsLaOutput none).2.1) "model" = false := by
  have hmain : check_training_status env s reg job_id =
      (if strContains (pyLower outL) "model" = true then
        JobStatus.completed info.pid info.remote_workspace outL
      else
        match execute_command env s (error_cmd info.remote_workspace) with
        | ExecResult.raises e => JobStatus.error e
        | ExecResult.ok _ outT _ => JobStatus.failed info.pid info.remote_workspace outT) := by
    simp only [check_training_status, hload, hps, hdead, Bool.false_eq_true, if_false, hls]
  refine ⟨?_, ?_, by decide, by decide⟩
  · intro hm
    rw [hmain, if_pos hm]
  · intro rcT outT errT hm hT
    rw [hmain, if_neg (by rw [hm]; simp), hT]

set_option maxRecDepth 20000 in
/-- Witness for C1: the amended statement at the environment where the
generated artifacts are present: the poll classifies the job completed and
attaches the listing. -/
theorem C1_amended_status_classification_witness :
    check_training_status envDoneWithModel connState regM1 "remote_m1_123" =
      JobStatus.completed "123" "/root/workspace/m1"
        (lsLaOutput (some ["m1_model.bin", "m1_config.json"])).2.1 :=
  (C1_amended_status_classification envDoneWithModel connState regM1 "remote_m1_123" recM1
      (by decide) 0 "stopped\n" "" (by decide) (by decide) 0
      (lsLaOutput (some ["m1_model.bin", "m1_config.json"])).2.1 "" (by decide)).1 (by decide)

/-! ## Claim C5 -/

/-- Claim C5 as stated is false: with the local role file missing, the
FileNotFound error is raised only AFTER the remote mkdir -p command has
been executed; the trace of remote operations preceding the raise is not
empty - it holds the workspace-creation command. -/
theorem C5_counterexample :
    (upload_training_files envNoRole connState [] tcM1).2.2 ≠ ([] : List RemoteOp) ∧
    (upload_training_files envNoRole connState [] tcM1).1 =
      Except.error "Role file not found: /tmp/role.json" ∧
    (upload_training_files envNoRole connState [] tcM1).2.2 =
      [RemoteOp.exec "mkdir -p /root/workspace/m1"] := by
  refine ⟨by decide, rfl, rfl⟩

/-- Claim C5 amended: with the local role file missing and the workspace
mkdir command completing, upload_training_files raises FileNotFound before
any FILE UPLOAD is attempted, but after the remote workspace-creation
command mkdir -p has been executed; no other remote operation occurs and
the local filesystem is untouched. -/
theorem C5_mkdir_precedes_role_check (env : RemoteEnv) (s : SSHState) (fs : LocalFS)
    (tc : TrainingConfig)
    (hmiss : env.localFileExists tc.role_file = false)
    (rc : Int) (out err : String)
    (hmk : execute_command env s ("mkdir -p " ++ (tc.remote_workspace ++ "/" ++ tc.model_id)) =
      ExecResult.ok rc out err) :
    upload_training_files env s fs tc =
      (Except.error ("Role file not found: " ++ tc.role_file), fs,
        [RemoteOp.exec ("mkdir -p " ++ (tc.remote_workspace ++ "/" ++ tc.model_id))]) := by
  simp only [upload_training_files, hmk, hmiss, Bool.false_eq_true, if_false]

/-- Witness for C5: the amended statement at the missing-role-file
environment. -/
theorem C5_mkdir_precedes_role_check_witness :
    upload_training_files envNoRole connState [] tcM1 =
      (Except.error "Role file not found: /tmp/role.json", [],
        [RemoteOp.exec "mkdir -p /root/workspace/m1"]) :=
  C5_mkdir_precedes_role_check envNoRole connState [] tcM1 (by decide) 0 "" "" (by decide)

/-! ## Claim C3 -/

/-- upload_training_files can never return a workspace: its script
generation step always raises (see the comment at the script generator), so
every call ends in a raise. -/
theorem upload_training_files_always_fails (env : RemoteEnv) (s : SSHState) (fs : LocalFS)
    (tc : TrainingConfig) :
    ∀ ws, (upload_training_files env s fs tc).1 ≠ Except.ok ws := by
  intro ws
  unfold upload_training_files
  dsimp only
  cases hmk : execute_command env s ("mkdir -p " ++ (tc.remote_workspace ++ "/" ++ tc.model_id)) with
  | raises e => simp
  | ok rc o er =>
    by_cases hex : env.localFileExists tc.role_file = true
    · simp only [hex, if_true]
      cases hput : upload_file env s tc.role_file
          (tc.remote_workspace ++ "/" ++ tc.model_id ++ "/role.json") with
      | some e => simp
      | none => simp [_create_training_script]
    · rw [Bool.not_eq_true] at hex
      simp [hex]

/-- Claim C3 is the intended behaviour, and the code cannot exhibit it: the
f-string template of the script generator evaluates an unbound name, so
start_training raises on EVERY input before the launch command is ever
issued - it never returns a job id and never persists a registry record.
The second conjunct evaluates the concrete happy-path scenario (role file
present, every remote operation succeeding): the call raises the NameError
and the operation trace stops at the role upload, with no launch command
and no registry write. -/
theorem C3_start_training_never_issues_job_id :
    (∀ (env : RemoteEnv) (s : SSHState) (fs : LocalFS) (reg : Registry)
        (tc : TrainingConfig),
      (∀ job_id, (start_training env s fs reg tc).1 ≠ Except.ok job_id) ∧
      (start_training env s fs reg tc).2.2.1 = reg) ∧
    start_training envHappy connState [] ([] : Registry) tcM1 =
      (Except.error "NameError: name \x27config\x27 is not defined", [], ([] : Registry),
        [RemoteOp.exec "mkdir -p /root/workspace/m1",
          RemoteOp.put "/tmp/role.json" "/root/workspace/m1/role.json"]) := by
  constructor
  · intro env s fs reg tc
    rcases hup : upload_training_files env s fs tc with ⟨res, fs1, ops⟩
    rcases res with e | ws
    · constructor
      · intro job_id
        simp [start_training, hup]
      · simp [start_training, hup]
    · exact absurd (by rw [hup] : (upload_training_files env s fs tc).1 = Except.ok ws)
        (upload_training_files_always_fails env s fs tc ws)
  · rfl

end SenkuSSH

